import Mathlib

/-!
Shallow embedding of the code-explainer backend (backend/auth.js and
backend/server.js) and proofs of its specified properties.

External collaborators (bcrypt, the JWT library internals, the OCR engine
and the remote generation API) are modelled as parameters or as abstract
outcome values, exactly at the boundary where the source calls them; all
control flow, filtering, validation and string construction is translated
from the source.
-/

namespace CodeExplainer

/-- A record of the credential store `users.json`: `{ email, password }`
where `password` holds the bcrypt hash (auth.js `registerUser`). -/
structure UserRecord where
  email : String
  password : String
deriving Repr, DecidableEq

/-- A record of the history store `user_history.json`
(server.js `/explain` success path). -/
structure HistoryRecord where
  id : String
  email : String
  language : String
  mode : String
  code : String
  explanation : String
  createdAt : String
deriving Repr, DecidableEq

/-- The claim payload a JWT carries after `jwt.sign({ email }, secret,
{ expiresIn: "12h" })`: the email plus the issued-at and expiry timestamps
(seconds). -/
structure Claim where
  email : String
  iat : Nat
  exp : Nat
deriving Repr, DecidableEq

/-- A value presented as a bearer token on the wire: either a JWT produced
by `jwt.sign` — carrying its payload and the secret it was signed with —
or a malformed string that is not a well-formed signed token. -/
inductive Wire where
  | signed (email : String) (iat exp : Nat) (secret : String)
  | malformed (payload : String)
deriving Repr, DecidableEq

/-- `jwt.sign({ email }, SECRET_KEY, { expiresIn: "12h" })` at time `now`
(seconds): expiry is 12 h = 43200 s after issuance (auth.js line 63). -/
def jwtSign (email secret : String) (now : Nat) : Wire :=
  .signed email now (now + 43200) secret

/-- `jwt.verify(token, SECRET_KEY)` at time `now`: throws (modelled as
`Except.error`) on a malformed token, a wrong signature, or an expired
token (`now ≥ exp`); otherwise returns the decoded payload. -/
def jwtVerifyE (w : Wire) (secret : String) (now : Nat) : Except String Claim :=
  match w with
  | .malformed _ => .error "jwt malformed"
  | .signed e i x s =>
      if s ≠ secret then .error "invalid signature"
      else if x ≤ now then .error "jwt expired"
      else .ok ⟨e, i, x⟩

/-- auth.js `verifyToken`: `try { return jwt.verify(token, SECRET_KEY) }
catch { return null }`. A missing token (`undefined`) also makes
`jwt.verify` throw, hence `null`. -/
def verifyToken (token : Option Wire) (secret : String) (now : Nat) : Option Claim :=
  match token with
  | none => none
  | some w =>
      match jwtVerifyE w secret now with
      | .ok c => some c
      | .error _ => none

/-- Result value of the auth operations: `{ error }`, `{ message }` or
`{ token }` objects returned by auth.js. -/
inductive AuthResult where
  | error (msg : String)
  | message (msg : String)
  | token (t : Wire)
deriving Repr, DecidableEq

/-- auth.js `registerUser(email, password)`, with the credential store
contents passed in and returned explicitly (the file read/write) and the
bcrypt hash as the collaborator parameter `hash`. -/
def registerUser (hash : String → String) (email password : String)
    (users : List UserRecord) : AuthResult × List UserRecord :=
  if users.any (fun u => u.email == email) then
    (.error "User already exists", users)
  else
    (.message "User registered successfully", users ++ [⟨email, hash password⟩])

/-- auth.js `loginUser(email, password)`: find the user by exact email,
check the password with `bcrypt.compareSync` (collaborator parameter
`compare`), and on success sign a 12-hour token. -/
def loginUser (compare : String → String → Bool) (email password : String)
    (users : List UserRecord) (secret : String) (now : Nat) : AuthResult :=
  match users.find? (fun u => u.email == email) with
  | none => .error "User not found"
  | some user =>
      if compare password user.password then .token (jwtSign email secret now)
      else .error "Invalid password"

/-! ### Server state, HTTP responses and JS value helpers (server.js) -/

/-- The two JSON stores the server mutates: `users.json` and
`user_history.json`. -/
structure ServerState where
  users : List UserRecord
  histories : List HistoryRecord
deriving Repr, DecidableEq

/-- The JSON bodies the modelled endpoints respond with. -/
inductive RespBody where
  | err (error : String)
  | errDetails (error details : String)
  | explanation (explanation mode : String)
  | explanationOnly (explanation : String)
  | result (result : String)
  | imageResult (extractedCode result : String)
  | history (records : List HistoryRecord)
  | message (msg : String)
deriving Repr, DecidableEq

/-- An HTTP response: status code and JSON body. -/
structure HttpResp where
  status : Nat
  body : RespBody
deriving Repr, DecidableEq

/-- One `{ role, content }` chat message sent to the generation API. -/
structure ChatMessage where
  role : String
  content : String
deriving Repr, DecidableEq

/-- JS falsiness of an optional string body field: `undefined`/`null` or
the empty string (`!code`). -/
def strFalsy : Option String → Bool
  | none => true
  | some s => s == ""

/-- The whitespace characters relevant to this server's inputs, as JS
`String.prototype.trim` strips them. -/
def isJsWhitespace (c : Char) : Bool :=
  c == ' ' || c == '\t' || c == '\n' || c == '\r'

/-- JS `s.trim()`: strip leading and trailing whitespace. -/
def jsTrim (s : String) : String :=
  String.mk
    (((s.toList.dropWhile isJsWhitespace).reverse.dropWhile isJsWhitespace).reverse)

/-- JS falsiness of `code?.trim()` (server.js `/explain` line 153):
missing, or trims to the empty string. -/
def strTrimFalsy : Option String → Bool
  | none => true
  | some s => jsTrim s == ""

/-- JS `a || b` for strings: `b` when `a` is the empty string. -/
def jsOr (s d : String) : String := if s == "" then d else s

/-- A JSON body field value that may be a number or a string
(the `lineNumber` field of `/explain-line`). Numbers are modelled as
integers. -/
inductive JsVal where
  | num (n : Int)
  | str (s : String)
deriving Repr, DecidableEq

/-- JS falsiness of an optional `JsVal`: missing, the number 0, or the
empty string (`!lineNumber`). -/
def jsValFalsy : Option JsVal → Bool
  | none => true
  | some (.num n) => n == 0
  | some (.str s) => s == ""

/-- JS `Number(v)` restricted to the integral values this server meets:
`none` models NaN. A whitespace-only string converts to 0; other strings
convert iff they read as an integer. -/
def jsToNumber : JsVal → Option Int
  | .num n => some n
  | .str s => if jsTrim s == "" then some 0 else (jsTrim s).toInt?

/-- JS string interpolation of a `JsVal` (`${lineNumber}`). -/
def jsValToString : JsVal → String
  | .num n => toString n
  | .str s => s

/-- Splitting a character list at every `\r\n` or `\n`, as the regex
`/\r?\n/` does (a lone `\r` is kept). -/
def splitLinesList : List Char → List (List Char)
  | [] => [[]]
  | '\r' :: '\n' :: rest => [] :: splitLinesList rest
  | '\n' :: rest => [] :: splitLinesList rest
  | c :: rest =>
      match splitLinesList rest with
      | [] => [[c]]
      | l :: ls => (c :: l) :: ls

/-- `String(code).split(/\r?\n/)` (server.js line 188). -/
def splitLines (s : String) : List String :=
  (splitLinesList s.toList).map String.mk

/-- JS `Array.prototype.join("\n")`. -/
def joinLines : List String → String
  | [] => ""
  | [l] => l
  | l :: ls => l ++ "\n" ++ joinLines ls

/-- `String(code).slice(0, n)`: the first `n` characters. -/
def jsSlice0 (s : String) (n : Nat) : String := String.mk (s.toList.take n)

/-! ### Prompt builders (server.js) -/

/-- The mode-specific instruction chosen by the `switch (mode)` in
`buildExplainMessages` (server.js lines 78–101). -/
def modeInstruction (mode : String) : String :=
  match mode with
  | "debug" => "\nFind bugs, logical errors, and edge cases.\nExplain why they are problems and how to fix them."
  | "optimize" => "\nImprove performance and readability.\nSuggest a better version and explain improvements."
  | "comment" => "\nAdd clean inline comments or docstrings.\nReturn mostly commented code."
  | _ => "\nExplain code step-by-step in simple language.\nStart with a short summary."

/-- server.js `buildExplainMessages({ code, language, mode })`: truncates
the code to 8000 characters and builds the two chat messages. -/
def buildExplainMessages (code language mode : String) : List ChatMessage :=
  let trimmedCode := jsSlice0 code 8000
  [⟨"system", "You are an expert programming tutor."⟩,
   ⟨"user",
    "\nLanguage: " ++ language ++ "\nMode: " ++ mode ++ "\n\n"
      ++ modeInstruction mode
      ++ "\n\nCode:\n```" ++ language ++ "\n" ++ trimmedCode ++ "\n```\n"⟩]

/-- The prompt string of `/convert` (server.js lines 235–242): the code is
interpolated as-is, with no truncation. -/
def convertPrompt (fromLang toLang code : String) : String :=
  "\nConvert the following code written in " ++ fromLang ++ " into " ++ toLang
    ++ ".\nPreserve behavior and idiomatic style for " ++ toLang
    ++ ". Only return the converted code (no extra commentary).\nCode:\n```"
    ++ fromLang ++ "\n" ++ code ++ "\n```\n"

/-- The messages `/convert` sends to the generation API. -/
def convertMessages (fromLang toLang code : String) : List ChatMessage :=
  [⟨"system", "You are a helpful code conversion assistant."⟩,
   ⟨"user", convertPrompt fromLang toLang code⟩]

/-- The prompt string of `/explain-line` (server.js lines 198–210). -/
def explainLinePrompt (lineNumber : JsVal) (language contextSnippet : String) : String :=
  "\nYou are an expert programming tutor. Explain the following single line of code (line "
    ++ jsValToString lineNumber
    ++ ") in plain English.\n- Provide a one-sentence summary of what the line does.\n- Mention potential pitfalls or edge-cases.\n- Suggest a short improved version if relevant.\nAssume the language is "
    ++ language
    ++ ".\nOnly use the code inside the \"Context\" for reference.\n\nContext:\n```"
    ++ language ++ "\n" ++ contextSnippet ++ "\n```\n"

/-! ### Endpoint handlers (server.js)

Each handler is a function of the incoming request, the collaborator
outcomes, and the current `ServerState`. Besides the response and the new
state, a handler returns the messages it sent to the external generation
client, `none` when no external call was made. -/

/-- `POST /explain` (server.js lines 147–176). `genResult` is the outcome
of `callOpenRouter`: the generated text, or the error it threw. `newId`
and `createdAt` stand for `uuidv4()` and `new Date().toISOString()`. -/
def explainHandler (secret : String) (now : Nat) (token : Option Wire)
    (code : Option String) (language mode : String)
    (genResult : Except String String) (newId createdAt : String)
    (st : ServerState) : HttpResp × ServerState × Option (List ChatMessage) :=
  match verifyToken token secret now with
  | none => (⟨403, .err "Unauthorized"⟩, st, none)
  | some user =>
    if strTrimFalsy code then (⟨400, .err "Code is required"⟩, st, none)
    else
      let messages := buildExplainMessages (code.getD "") language mode
      match genResult with
      | .error e =>
          (⟨500, .errDetails "Failed to generate explanation" e⟩, st, some messages)
      | .ok explanation =>
          let record : HistoryRecord :=
            ⟨newId, user.email, language, jsOr mode "explain", code.getD "",
             explanation, createdAt⟩
          (⟨200, .explanation explanation (jsOr mode "explain")⟩,
           { st with histories := record :: st.histories }, some messages)

/-- `POST /convert` (server.js lines 226–253). -/
def convertHandler (secret : String) (now : Nat) (token : Option Wire)
    (code : Option String) (fromLang toLang : String)
    (genResult : Except String String) (st : ServerState) :
    HttpResp × ServerState × Option (List ChatMessage) :=
  match verifyToken token secret now with
  | none => (⟨403, .err "Unauthorized"⟩, st, none)
  | some _ =>
    if strFalsy code then (⟨400, .err "Code is required"⟩, st, none)
    else
      let messages := convertMessages fromLang toLang (code.getD "")
      match genResult with
      | .error e => (⟨500, .errDetails "Conversion failed" e⟩, st, some messages)
      | .ok converted => (⟨200, .result converted⟩, st, some messages)

/-- `POST /explain-line` (server.js lines 179–223). -/
def explainLineHandler (secret : String) (now : Nat) (token : Option Wire)
    (code : Option String) (lineNumber : Option JsVal) (language : String)
    (genResult : Except String String) (st : ServerState) :
    HttpResp × ServerState × Option (List ChatMessage) :=
  match verifyToken token secret now with
  | none => (⟨403, .err "Unauthorized"⟩, st, none)
  | some _ =>
    if strFalsy code || jsValFalsy lineNumber then
      (⟨400, .err "Missing code or lineNumber"⟩, st, none)
    else
      let lines := splitLines (code.getD "")
      let lineVal := lineNumber.getD (.num 0)
      match jsToNumber lineVal with
      | none => (⟨400, .err "Invalid lineNumber"⟩, st, none)
      | some n =>
        let idx : Int := n - 1
        if idx < 0 ∨ (lines.length : Int) ≤ idx then
          (⟨400, .err "Invalid lineNumber"⟩, st, none)
        else
          let start := max 0 (idx - 2)
          let stop := min (lines.length : Int) (idx + 3)
          let contextSnippet :=
            joinLines ((lines.drop start.toNat).take (stop - start).toNat)
          let messages : List ChatMessage :=
            [⟨"system", "You are an expert programming tutor."⟩,
             ⟨"user", explainLinePrompt lineVal language contextSnippet⟩]
          match genResult with
          | .error e => (⟨500, .errDetails "Failed to explain line" e⟩, st, some messages)
          | .ok explanation => (⟨200, .explanationOnly explanation⟩, st, some messages)

/-- server.js `ocrFileAndDelete(filePath)` (lines 347–352).
`recognizeResult` is the outcome of `Tesseract.recognize`: on success the
optional extracted text (`data?.text`), on failure the thrown error. The
returned flag records whether `fs.unlink` on the temporary file was
reached: when `recognize` throws, the function rethrows before the
`fs.unlink` line runs. -/
def ocrFileAndDelete (recognizeResult : Except String (Option String)) :
    Except String String × Bool :=
  match recognizeResult with
  | .error e => (.error e, false)
  | .ok text => (.ok (text.getD ""), true)

/-- `POST /convert-image` (server.js lines 354–383). `file` is
`req.file`'s path if a file was uploaded. The last component records
whether the uploaded temporary file was deleted. -/
def convertImageHandler (secret : String) (now : Nat) (token : Option Wire)
    (file : Option String) (recognizeResult : Except String (Option String))
    (fromLang toLang : String) (genResult : Except String String)
    (st : ServerState) :
    HttpResp × ServerState × Option (List ChatMessage) × Bool :=
  match verifyToken token secret now with
  | none => (⟨403, .err "Unauthorized"⟩, st, none, false)
  | some _ =>
    match file with
    | none => (⟨400, .err "No image uploaded"⟩, st, none, false)
    | some _ =>
      match ocrFileAndDelete recognizeResult with
      | (.error e, deleted) =>
          (⟨500, .errDetails "Convert image failed" e⟩, st, none, deleted)
      | (.ok text, deleted) =>
        if jsTrim text == "" then
          (⟨400, .err "No readable code found"⟩, st, none, deleted)
        else
          let messages : List ChatMessage :=
            [⟨"system", "You are a code conversion assistant."⟩,
             ⟨"user",
              "\nConvert the following " ++ fromLang ++ " code into " ++ toLang
                ++ ". Return only the converted code.\n\nCode:\n```" ++ fromLang
                ++ "\n" ++ text ++ "\n```\n"⟩]
          match genResult with
          | .error e =>
              (⟨500, .errDetails "Convert image failed" e⟩, st, some messages, deleted)
          | .ok converted =>
              (⟨200, .imageResult (jsTrim text) converted⟩, st, some messages, deleted)

/-- `GET /history` (server.js lines 454–462). -/
def historyGetHandler (secret : String) (now : Nat) (token : Option Wire)
    (st : ServerState) : HttpResp × ServerState :=
  match verifyToken token secret now with
  | none => (⟨403, .err "Unauthorized"⟩, st)
  | some user =>
      (⟨200, .history (st.histories.filter (fun h => h.email == user.email))⟩, st)

/-- `DELETE /history` (server.js lines 464–474). -/
def historyDeleteHandler (secret : String) (now : Nat) (token : Option Wire)
    (st : ServerState) : HttpResp × ServerState :=
  match verifyToken token secret now with
  | none => (⟨403, .err "Unauthorized"⟩, st)
  | some user =>
      (⟨200, .message "History cleared successfully"⟩,
       { st with histories := st.histories.filter (fun h => h.email != user.email) })

/-! ### Sample concrete data used by witnesses -/

/-- A sample history record of identity `a@x.com`. -/
def histA : HistoryRecord := ⟨"1", "a@x.com", "js", "explain", "x=1", "sets x", "t1"⟩

/-- A sample history record of identity `b@x.com`. -/
def histB : HistoryRecord := ⟨"2", "b@x.com", "py", "explain", "y=2", "sets y", "t2"⟩

/-- A sample server state holding one user and one history record per
identity. -/
def sampleState : ServerState := ⟨[⟨"a@x.com", "pw"⟩], [histA, histB]⟩

/-- A token for `a@x.com` signed with secret `"k"` at time 0. -/
def sampleToken : Wire := jwtSign "a@x.com" "k" 0

/-! ### Theorems -/

/-- C1: for every verified identity, `GET /history` responds 200 with
exactly the stored records whose email equals that identity — a sublist of
the store (stored order preserved), membership exactly on matching email,
matching multiplicities — and never a record of a different identity. -/
theorem historyGet_listFor_partition (secret : String) (now : Nat)
    (token : Option Wire) (st : ServerState) (u : Claim)
    (hauth : verifyToken token secret now = some u) :
    ∃ l, historyGetHandler secret now token st = (⟨200, .history l⟩, st)
      ∧ l.Sublist st.histories
      ∧ (∀ h, h ∈ l ↔ h ∈ st.histories ∧ h.email = u.email)
      ∧ (∀ h ∈ l, h.email = u.email)
      ∧ (∀ h : HistoryRecord, h.email = u.email → l.count h = st.histories.count h)
      ∧ (∀ h : HistoryRecord, h.email ≠ u.email → l.count h = 0) := by
  refine ⟨st.histories.filter (fun h => h.email == u.email), ?_, ?_, ?_, ?_, ?_, ?_⟩
  · unfold historyGetHandler; rw [hauth]
  · exact List.filter_sublist _
  · intro h; simp [List.mem_filter]
  · intro h hm
    exact beq_iff_eq.mp (List.mem_filter.mp hm).2
  · intro h he
    exact List.count_filter (by simpa using he)
  · intro h he
    exact List.count_eq_zero.mpr (fun hm => he ((List.mem_filter.mp hm).2 |> beq_iff_eq.mp))

/-- Witness for C1 at a concrete token and store. -/
theorem historyGet_listFor_partition_witness :
    ∃ l, historyGetHandler "k" 100 (some sampleToken) sampleState = (⟨200, .history l⟩, sampleState)
      ∧ l.Sublist sampleState.histories
      ∧ (∀ h, h ∈ l ↔ h ∈ sampleState.histories ∧ h.email = "a@x.com")
      ∧ (∀ h ∈ l, h.email = "a@x.com")
      ∧ (∀ h : HistoryRecord, h.email = "a@x.com" → l.count h = sampleState.histories.count h)
      ∧ (∀ h : HistoryRecord, h.email ≠ "a@x.com" → l.count h = 0) :=
  historyGet_listFor_partition "k" 100 (some sampleToken) sampleState
    ⟨"a@x.com", 0, 43200⟩ (by decide)

/-- C2: registering an email already present in the credential store
returns the conflict error and leaves the store unchanged (hence its
length unchanged); registering an absent email hashes the password and
appends exactly one record. -/
theorem registerUser_conflict_or_append (hash : String → String)
    (email password : String) (users : List UserRecord) :
    ((∃ u ∈ users, u.email = email) →
      registerUser hash email password users = (.error "User already exists", users))
    ∧ ((∀ u ∈ users, u.email ≠ email) →
      registerUser hash email password users
        = (.message "User registered successfully", users ++ [⟨email, hash password⟩])) := by
  constructor
  · intro ⟨u, hu, he⟩
    unfold registerUser
    rw [if_pos (List.any_eq_true.mpr ⟨u, hu, by simpa using he⟩)]
  · intro hnone
    unfold registerUser
    rw [if_neg]
    simp only [List.any_eq_true, beq_iff_eq, not_exists]
    intro u
    exact fun ⟨hu, he⟩ => hnone u hu he

/-- Witness for C2: both branches at concrete inputs. -/
theorem registerUser_conflict_or_append_witness :
    (registerUser (fun s => s) "a@x.com" "pw" [⟨"a@x.com", "h"⟩]
        = (.error "User already exists", [⟨"a@x.com", "h"⟩]))
    ∧ (registerUser (fun s => s) "b@x.com" "pw" [⟨"a@x.com", "h"⟩]
        = (.message "User registered successfully",
           [⟨"a@x.com", "h"⟩, ⟨"b@x.com", "pw"⟩])) :=
  ⟨(registerUser_conflict_or_append (fun s => s) "a@x.com" "pw" [⟨"a@x.com", "h"⟩]).1
      ⟨⟨"a@x.com", "h"⟩, by decide, rfl⟩,
   (registerUser_conflict_or_append (fun s => s) "b@x.com" "pw" [⟨"a@x.com", "h"⟩]).2
      (by decide)⟩

/-- C6: for every verified identity, `DELETE /history` removes all and
only that identity's records: afterwards no record of that identity
remains, the remainder is a sublist of the store (original relative order),
and every other identity's records are exactly preserved. The credential
store is untouched. -/
theorem historyDelete_clearFor_partition (secret : String) (now : Nat)
    (token : Option Wire) (st : ServerState) (u : Claim)
    (hauth : verifyToken token secret now = some u) :
    ∃ rest,
      historyDeleteHandler secret now token st
        = (⟨200, .message "History cleared successfully"⟩, ⟨st.users, rest⟩)
      ∧ rest.Sublist st.histories
      ∧ (∀ h ∈ rest, h.email ≠ u.email)
      ∧ (∀ h, h ∈ rest ↔ h ∈ st.histories ∧ h.email ≠ u.email)
      ∧ (∀ B, B ≠ u.email →
          rest.filter (fun h => h.email == B) = st.histories.filter (fun h => h.email == B)) := by
  refine ⟨st.histories.filter (fun h => h.email != u.email), ?_, ?_, ?_, ?_, ?_⟩
  · unfold historyDeleteHandler; rw [hauth]
  · exact List.filter_sublist _
  · intro h hm
    exact bne_iff_ne.mp (List.mem_filter.mp hm).2
  · intro h; simp [List.mem_filter]
  · intro B hB
    rw [List.filter_filter]
    refine List.filter_congr (fun h _ => ?_)
    by_cases hb : h.email = B
    · simp [hb, bne_iff_ne, hB]
    · simp [hb]

/-- Witness for C6 at a concrete token and store. -/
theorem historyDelete_clearFor_partition_witness :
    ∃ rest,
      historyDeleteHandler "k" 100 (some sampleToken) sampleState
        = (⟨200, .message "History cleared successfully"⟩, ⟨sampleState.users, rest⟩)
      ∧ rest.Sublist sampleState.histories
      ∧ (∀ h ∈ rest, h.email ≠ "a@x.com")
      ∧ (∀ h, h ∈ rest ↔ h ∈ sampleState.histories ∧ h.email ≠ "a@x.com")
      ∧ (∀ B, B ≠ "a@x.com" →
          rest.filter (fun h => h.email == B)
            = sampleState.histories.filter (fun h => h.email == B)) :=
  historyDelete_clearFor_partition "k" 100 (some sampleToken) sampleState
    ⟨"a@x.com", 0, 43200⟩ (by decide)

/-- C3: a successful login returns a token signed for the login email,
issued at `now` with expiry `now + 43200` seconds (12 hours); verifying it
at any time strictly before the expiry deadline yields back the login
email, and verifying it at the deadline or any time after fails. -/
theorem loginUser_token_identity_expiry (compare : String → String → Bool)
    (email password secret : String) (users : List UserRecord) (now : Nat) (t : Wire)
    (h : loginUser compare email password users secret now = .token t) :
    t = .signed email now (now + 43200) secret
    ∧ (∀ time, time < now + 43200 →
        verifyToken (some t) secret time = some ⟨email, now, now + 43200⟩)
    ∧ (∀ time, now + 43200 ≤ time → verifyToken (some t) secret time = none) := by
  have ht : t = jwtSign email secret now := by
    unfold loginUser at h
    split at h
    · exact absurd h (by simp)
    · split at h
      · exact (AuthResult.token.injEq _ _).mp h.symm
      · exact absurd h (by simp)
  subst ht
  refine ⟨rfl, ?_, ?_⟩
  · intro time hlt
    simp [verifyToken, jwtVerifyE, jwtSign, Nat.not_le.mpr hlt]
  · intro time hge
    simp [verifyToken, jwtVerifyE, jwtSign, hge]

/-- Witness for C3: a concrete successful login, verified before expiry
and rejected after. -/
theorem loginUser_token_identity_expiry_witness :
    (Wire.signed "a@x.com" 0 43200 "k" : Wire) = .signed "a@x.com" 0 (0 + 43200) "k"
    ∧ (∀ time, time < 0 + 43200 →
        verifyToken (some (Wire.signed "a@x.com" 0 43200 "k")) "k" time
          = some ⟨"a@x.com", 0, 0 + 43200⟩)
    ∧ (∀ time, 0 + 43200 ≤ time →
        verifyToken (some (Wire.signed "a@x.com" 0 43200 "k")) "k" time = none) :=
  loginUser_token_identity_expiry (fun p h => p == h) "a@x.com" "pw" "k"
    [⟨"a@x.com", "pw"⟩] 0 (Wire.signed "a@x.com" 0 43200 "k") (by decide)

/-- C4: token verification is total and never escapes an exception: a
missing token, a malformed token, a token signed with a different secret,
and an expired token all yield the unauthenticated signal `none`, and the
only inputs yielding a claim are well-formed unexpired tokens signed with
the server's secret, whose embedded claim is returned verbatim. -/
theorem verifyToken_total_never_throws (secret : String) (now : Nat) :
    verifyToken none secret now = none
    ∧ (∀ g, verifyToken (some (.malformed g)) secret now = none)
    ∧ (∀ e i x s, s ≠ secret → verifyToken (some (.signed e i x s)) secret now = none)
    ∧ (∀ e i x, x ≤ now → verifyToken (some (.signed e i x secret)) secret now = none)
    ∧ (∀ e i x, now < x →
        verifyToken (some (.signed e i x secret)) secret now = some ⟨e, i, x⟩)
    ∧ (∀ w c, verifyToken (some w) secret now = some c →
        w = .signed c.email c.iat c.exp secret ∧ now < c.exp) := by
  refine ⟨rfl, fun g => rfl, ?_, ?_, ?_, ?_⟩
  · intro e i x s hs
    unfold verifyToken jwtVerifyE
    simp [hs]
  · intro e i x hx
    unfold verifyToken jwtVerifyE
    simp [hx]
  · intro e i x hx
    unfold verifyToken jwtVerifyE
    simp [Nat.not_le.mpr hx]
  · intro w c hc
    cases w with
    | malformed g => exact absurd hc (by simp [verifyToken, jwtVerifyE])
    | signed e i x s =>
        by_cases hs : s = secret
        · subst hs
          by_cases hx : x ≤ now
          · simp [verifyToken, jwtVerifyE, hx] at hc
          · simp only [verifyToken, jwtVerifyE, ne_eq, not_true_eq_false, if_false,
              if_neg hx, Option.some.injEq] at hc
            subst hc
            exact ⟨rfl, Nat.not_le.mp hx⟩
        · simp [verifyToken, jwtVerifyE, hs] at hc

/-- Witness for C4: concrete garbage, wrong-secret, expired and valid
tokens. -/
theorem verifyToken_total_never_throws_witness :
    verifyToken none "k" 5 = none
    ∧ verifyToken (some (.malformed "garbage")) "k" 5 = none
    ∧ verifyToken (some (.signed "e" 0 99 "other")) "k" 5 = none
    ∧ verifyToken (some (.signed "e" 0 5 "k")) "k" 5 = none
    ∧ verifyToken (some (.signed "e" 0 9 "k")) "k" 5 = some ⟨"e", 0, 9⟩ :=
  ⟨(verifyToken_total_never_throws "k" 5).1,
   (verifyToken_total_never_throws "k" 5).2.1 "garbage",
   (verifyToken_total_never_throws "k" 5).2.2.1 "e" 0 99 "other" (by decide),
   (verifyToken_total_never_throws "k" 5).2.2.2.1 "e" 0 5 (by omega),
   (verifyToken_total_never_throws "k" 5).2.2.2.2.1 "e" 0 9 (by omega)⟩

/-- C5: when the bearer token is missing or fails verification, the
`/explain`, `GET /history` and `DELETE /history` handlers respond
403 `{error:"Unauthorized"}`, leave the history and credential stores
unchanged, and make no external generation call. -/
theorem unauthorized_halts_before_mutation (secret : String) (now : Nat)
    (token : Option Wire) (code : Option String) (language mode : String)
    (genResult : Except String String) (newId createdAt : String) (st : ServerState)
    (hauth : verifyToken token secret now = none) :
    explainHandler secret now token code language mode genResult newId createdAt st
      = (⟨403, .err "Unauthorized"⟩, st, none)
    ∧ historyGetHandler secret now token st = (⟨403, .err "Unauthorized"⟩, st)
    ∧ historyDeleteHandler secret now token st = (⟨403, .err "Unauthorized"⟩, st) := by
  refine ⟨?_, ?_, ?_⟩
  · unfold explainHandler; rw [hauth]
  · unfold historyGetHandler; rw [hauth]
  · unfold historyDeleteHandler; rw [hauth]

/-- Witness for C5: a request with no `Authorization` token. -/
theorem unauthorized_halts_before_mutation_witness :
    explainHandler "k" 0 none (some "x=1") "js" "explain" (.ok "e") "id" "t" sampleState
      = (⟨403, .err "Unauthorized"⟩, sampleState, none)
    ∧ historyGetHandler "k" 0 none sampleState = (⟨403, .err "Unauthorized"⟩, sampleState)
    ∧ historyDeleteHandler "k" 0 none sampleState = (⟨403, .err "Unauthorized"⟩, sampleState) :=
  unauthorized_halts_before_mutation "k" 0 none (some "x=1") "js" "explain"
    (.ok "e") "id" "t" sampleState rfl

/-! ### Prompt-truncation facts (C8) -/

/-- An input of 8001 characters, one past the `/explain` truncation
bound. -/
def longCode : String := String.mk (List.replicate 8001 'x')

/-- `slice(0, n)` keeps at most `n` characters. -/
theorem jsSlice0_length_le (s : String) (n : Nat) : (jsSlice0 s n).length ≤ n := by
  show (s.toList.take n).length ≤ n
  rw [List.length_take]
  exact Nat.min_le_left _ _

/-- `slice(0, n)` is idempotent. -/
theorem jsSlice0_idem (s : String) (n : Nat) : jsSlice0 (jsSlice0 s n) n = jsSlice0 s n := by
  unfold jsSlice0
  rw [show (String.mk (s.toList.take n)).toList = s.toList.take n from rfl,
    List.take_take, Nat.min_self]

/-- The `/convert` prompt length grows by exactly the full input length:
the input is embedded whole. -/
theorem convertPrompt_length (fromLang toLang code : String) :
    (convertPrompt fromLang toLang code).length
      = (convertPrompt fromLang toLang "").length + code.length := by
  have h0 : ("" : String).length = 0 := rfl
  simp only [convertPrompt, String.length_append, h0]
  omega

/-- C8 counterexample: the `/convert` prompt distinguishes an
8001-character input from its 8000-character truncation, so `/convert`
does not truncate the input code to 8000 characters before inclusion —
the claim fails for that generation endpoint. -/
theorem convertPrompt_not_truncated :
    convertPrompt "a" "b" longCode ≠ convertPrompt "a" "b" (jsSlice0 longCode 8000) := by
  intro h
  have hlen := congrArg String.length h
  rw [convertPrompt_length "a" "b" longCode,
    convertPrompt_length "a" "b" (jsSlice0 longCode 8000)] at hlen
  have h1 : longCode.length = 8001 := by
    show (List.replicate 8001 'x').length = 8001
    rw [List.length_replicate]
  have h2 : (jsSlice0 longCode 8000).length = 8000 := by
    show ((longCode.toList).take 8000).length = 8000
    rw [List.length_take]
    show min 8000 (List.replicate 8001 'x').length = 8000
    rw [List.length_replicate]
    omega
  omega

/-- C8 amended: only the `/explain` prompt builder truncates its input —
`buildExplainMessages` depends only on the first 8000 characters of the
code, which are at most 8000 characters long — while the `/convert`
prompt embeds the full untruncated input, its length growing by the whole
input length. -/
theorem explain_truncates_but_convert_does_not :
    (∀ code language mode,
      buildExplainMessages code language mode
        = buildExplainMessages (jsSlice0 code 8000) language mode
      ∧ (jsSlice0 code 8000).length ≤ 8000)
    ∧ (∀ fromLang toLang code,
      (convertPrompt fromLang toLang code).length
        = (convertPrompt fromLang toLang "").length + code.length) := by
  refine ⟨fun code language mode => ⟨?_, jsSlice0_length_le code 8000⟩,
    fun f t c => convertPrompt_length f t c⟩
  simp [buildExplainMessages, jsSlice0_idem]

/-- C9 counterexample: an authenticated `/convert` request whose code is
the whitespace-only string `" "` is not rejected — the handler answers
200 and sends the whitespace code to the external generation client,
because `/convert` only tests `!code`, not `!code?.trim()`. -/
theorem convert_whitespace_not_rejected :
    (convertHandler "k" 100 (some sampleToken) (some " ") "py" "js" (.ok "out") sampleState).1
      = ⟨200, .result "out"⟩
    ∧ (convertHandler "k" 100 (some sampleToken) (some " ") "py" "js" (.ok "out") sampleState).2.2
      = some (convertMessages "py" "js" " ") := by
  constructor <;> rfl

/-- C9 amended: on an authenticated request, a missing or empty required
code field makes the handler reject with HTTP 400 and a descriptive
message, with no external call and both stores unchanged; `/explain`
additionally rejects whitespace-only code (it tests `code?.trim()`), but
`/convert` does not — whitespace-only code there proceeds to the
external call. -/
theorem validation_rejects_without_side_effects (secret : String) (now : Nat)
    (token : Option Wire) (code : Option String) (language mode fromLang toLang : String)
    (genResult : Except String String) (newId createdAt : String) (st : ServerState)
    (u : Claim) (hauth : verifyToken token secret now = some u) :
    (strTrimFalsy code = true →
      explainHandler secret now token code language mode genResult newId createdAt st
        = (⟨400, .err "Code is required"⟩, st, none))
    ∧ (strFalsy code = true →
      convertHandler secret now token code fromLang toLang genResult st
        = (⟨400, .err "Code is required"⟩, st, none)) := by
  constructor
  · intro hc
    simp [explainHandler, hauth, hc]
  · intro hc
    simp [convertHandler, hauth, hc]

/-- Witness for C9 (amended): a missing code field on `/explain` and on
`/convert` under a valid token. -/
theorem validation_rejects_without_side_effects_witness :
    (explainHandler "k" 100 (some sampleToken) none "js" "explain" (.ok "out") "id" "t" sampleState
      = (⟨400, .err "Code is required"⟩, sampleState, none))
    ∧ (convertHandler "k" 100 (some sampleToken) none "py" "js" (.ok "out") sampleState
      = (⟨400, .err "Code is required"⟩, sampleState, none)) :=
  ⟨(validation_rejects_without_side_effects "k" 100 (some sampleToken) none "js" "explain"
      "py" "js" (.ok "out") "id" "t" sampleState ⟨"a@x.com", 0, 43200⟩ (by decide)).1 rfl,
   (validation_rejects_without_side_effects "k" 100 (some sampleToken) none "js" "explain"
      "py" "js" (.ok "out") "id" "t" sampleState ⟨"a@x.com", 0, 43200⟩ (by decide)).2 rfl⟩

/-- C7: when `Tesseract.recognize` throws, `ocrFileAndDelete` rethrows
before reaching the `fs.unlink` line, so the uploaded temporary file is
NOT deleted: the authenticated `/convert-image` request below ends in the
500 handler with the temporary file still on disk. On the success path
(and on the empty-text failure path) the file is deleted. -/
theorem convertImage_ocr_failure_keeps_temp_file :
    convertImageHandler "k" 100 (some sampleToken) (some "uploads/tmp1")
        (.error "ocr failed") "py" "js" (.ok "out") sampleState
      = (⟨500, .errDetails "Convert image failed" "ocr failed"⟩, sampleState, none, false)
    ∧ (ocrFileAndDelete (.error "ocr failed")).2 = false
    ∧ (ocrFileAndDelete (.ok (some "code"))).2 = true
    ∧ (ocrFileAndDelete (.ok (some "  "))).2 = true := by
  refine ⟨rfl, rfl, rfl, rfl⟩

/-- The context window in the claim's words: the lines of the split code
from `max(0, lineNumber-3)` through `min(lineCount, lineNumber+2)` as a
zero-based slice, joined with newlines. -/
def claimedContextWindow (code : String) (n : Int) : String :=
  joinLines (((splitLines code).drop (max 0 (n - 3)).toNat).take
    ((min ((splitLines code).length : Int) (n + 2)).toNat - (max 0 (n - 3)).toNat))

/-- C10 counterexample: `lineNumber = 0` converts to a number below 1,
yet the handler answers 400 `{error:"Missing code or lineNumber"}` — the
falsiness check fires first — not `{error:"Invalid lineNumber"}` as the
claim states. -/
theorem explainLine_zero_not_invalid :
    (explainLineHandler "k" 100 (some sampleToken) (some "a\nb") (some (.num 0)) "js"
        (.ok "e") sampleState).1
      = ⟨400, .err "Missing code or lineNumber"⟩
    ∧ (explainLineHandler "k" 100 (some sampleToken) (some "a\nb") (some (.num 0)) "js"
        (.ok "e") sampleState).1
      ≠ ⟨400, .err "Invalid lineNumber"⟩ := by
  exact ⟨rfl, by decide⟩

/-- The context snippet the handler computes (with `idx = n - 1`) equals
the window stated by the claim (in terms of `n` itself). -/
theorem handlerSnippet_eq_claimed (c : String) (n : Int)
    (h1 : 1 ≤ n) (h2 : n ≤ ((splitLines c).length : Int)) :
    joinLines (((splitLines c).drop (max 0 (n - 1 - 2)).toNat).take
        (min ((splitLines c).length : Int) (n - 1 + 3) - max 0 (n - 1 - 2)).toNat)
      = claimedContextWindow c n := by
  have e1 : (max 0 (n - 1 - 2)).toNat = (max 0 (n - 3)).toNat := by omega
  have e2 : (min ((splitLines c).length : Int) (n - 1 + 3) - max 0 (n - 1 - 2)).toNat
      = (min ((splitLines c).length : Int) (n + 2)).toNat - (max 0 (n - 3)).toNat := by
    omega
  unfold claimedContextWindow
  rw [e1, e2]

/-- C10 amended: on an authenticated `/explain-line` request with
non-falsy `code` and `lineNumber` (falsy values — missing, 0, the empty
string — are caught earlier with 400
`{error:"Missing code or lineNumber"}`), a `lineNumber` that converts to
NaN, to a number below 1, or to a number greater than the line count is
rejected with 400 `{error:"Invalid lineNumber"}`, no external call and an
unchanged state; otherwise the context snippet sent to the external
client is exactly the lines from `max(0, lineNumber-3)` through
`min(lineCount, lineNumber+2)` (zero-based, clamped). -/
theorem explainLine_bounds_and_context (secret : String) (now : Nat)
    (token : Option Wire) (c : String) (v : JsVal) (language : String)
    (genResult : Except String String) (st : ServerState) (u : Claim)
    (hauth : verifyToken token secret now = some u)
    (hc : c ≠ "") (hv0 : v ≠ .num 0) (hvs : v ≠ .str "") :
    (jsToNumber v = none →
      explainLineHandler secret now token (some c) (some v) language genResult st
        = (⟨400, .err "Invalid lineNumber"⟩, st, none))
    ∧ (∀ n : Int, jsToNumber v = some n →
        (n < 1 ∨ ((splitLines c).length : Int) < n) →
        explainLineHandler secret now token (some c) (some v) language genResult st
          = (⟨400, .err "Invalid lineNumber"⟩, st, none))
    ∧ (∀ n : Int, jsToNumber v = some n →
        1 ≤ n → n ≤ ((splitLines c).length : Int) →
        (explainLineHandler secret now token (some c) (some v) language genResult st).2.2
          = some [⟨"system", "You are an expert programming tutor."⟩,
                  ⟨"user", explainLinePrompt v language (claimedContextWindow c n)⟩]) := by
  have hcb : strFalsy (some c) = false := by simp [strFalsy, hc]
  have hvb : jsValFalsy (some v) = false := by
    cases v with
    | num n =>
        simp only [jsValFalsy, beq_eq_false_iff_ne, ne_eq]
        intro h; exact hv0 (by rw [h])
    | str s =>
        simp only [jsValFalsy, beq_eq_false_iff_ne, ne_eq]
        intro h; exact hvs (by rw [h])
  refine ⟨?_, ?_, ?_⟩
  · intro hn
    simp [explainLineHandler, hauth, hcb, hvb, hn]
  · intro n hn hrange
    simp [explainLineHandler, hauth, hcb, hvb, hn]
    intro ha hb
    exfalso; omega
  · intro n hn h1 h2
    have hno : ¬(n < 1 ∨ ((splitLines c).length : Int) ≤ n - 1) := by omega
    rw [← handlerSnippet_eq_claimed c n h1 h2]
    cases genResult with
    | error e => simp [explainLineHandler, hauth, hcb, hvb, hn, hno]
    | ok explanation => simp [explainLineHandler, hauth, hcb, hvb, hn, hno]

/-- Witness for C10 (amended): line 2 of a four-line input yields the
window of lines 0 through 3 (all four lines). -/
theorem explainLine_bounds_and_context_witness :
    claimedContextWindow "l1\nl2\nl3\nl4" 2 = "l1\nl2\nl3\nl4"
    ∧ (explainLineHandler "k" 100 (some sampleToken) (some "l1\nl2\nl3\nl4")
        (some (.num 2)) "js" (.ok "e") sampleState).2.2
      = some [⟨"system", "You are an expert programming tutor."⟩,
              ⟨"user", explainLinePrompt (.num 2) "js"
                (claimedContextWindow "l1\nl2\nl3\nl4" 2)⟩] :=
  ⟨by decide,
   (explainLine_bounds_and_context "k" 100 (some sampleToken) "l1\nl2\nl3\nl4"
      (.num 2) "js" (.ok "e") sampleState ⟨"a@x.com", 0, 43200⟩ (by decide)
      (by decide) (by decide) (by decide)).2.2 2 rfl (by omega) (by decide)⟩

end CodeExplainer
